import Mathlib

/-!
Shallow embedding of the `PDFImageProcessor` layout-segmentation logic of
`paper-gather-system` (`src/core/image_processor/pdf_image_processor.py`).

Detected layout blocks carry rational pixel coordinates (the detector returns
floats) and a string label.  Python `int()` truncation toward zero is modelled
by `pyInt`, Python's stable `list.sort(key=λb. b.y1)` by Mathlib's stable
`List.insertionSort`, and fallible paths (`ZeroDivisionError` in
`is_two_column`, the `ValueError` for an uninitialized model, and the
`AttributeError` raised because `process_two_column` is referenced but never
defined) by `Except String`.
-/

namespace PaperGather

/-- A detected layout block: rectangle corners and a type label drawn from
{Text, Title, List, Table, Figure} (synthetic gap blocks are labelled Text). -/
structure Block where
  x1 : ℚ
  y1 : ℚ
  x2 : ℚ
  y2 : ℚ
  type : String
deriving DecidableEq

/-- Python `int()`: truncation toward zero. -/
def pyInt (q : ℚ) : ℤ := if q < 0 then -(Rat.floor (-q)) else Rat.floor q

/-- Python `max` on two integers (spelled out so that it evaluates inside the
kernel). -/
def pymax (a b : ℤ) : ℤ := if a ≤ b then b else a

/-- Python `min` on two integers. -/
def pymin (a b : ℤ) : ℤ := if a ≤ b then a else b

/-- Python `max` on two rationals. -/
def qmax (a b : ℚ) : ℚ := if a ≤ b then b else a

/-- Python `min` on two rationals. -/
def qmin (a b : ℚ) : ℚ := if a ≤ b then a else b

/-- Blocks that enter the column statistics: `block.type == "Text" or block.type == "List"`. -/
def qualifies (b : Block) : Bool := b.type == "Text" || b.type == "List"

/-- The `ratio_list` built by `is_two_column`: width of each Text/List block
divided by the page width. -/
def ratioList (page_width : ℚ) (layout : List Block) : List ℚ :=
  (layout.filter qualifies).map (fun b => (b.x2 - b.x1) / page_width)

/-- Embedding of `PDFImageProcessor.is_two_column`.  Computes the mean of
`ratio_list` (raising `ZeroDivisionError` when the list is empty, as
`sum(ratio_list) / len(ratio_list)` does) and returns `False` (one column)
when the mean exceeds 0.5, `True` (two columns) otherwise. -/
def is_two_column (page_width : ℚ) (layout : List Block) : Except String Bool :=
  let rl := ratioList page_width layout
  if rl.length = 0 then
    Except.error "ZeroDivisionError"
  else
    let average_ratio := rl.sum / (rl.length : ℚ)
    if average_ratio > 1/2 then Except.ok false else Except.ok true

/-- Embedding of `layout.sort(key=lambda b: b.coordinates[1], inplace=True)`:
a stable sort by `y1` ascending. -/
def sortByY1 (layout : List Block) : List Block :=
  List.insertionSort (fun a b => a.y1 ≤ b.y1) layout

/-- The synthetic block inserted to patch a gap between consecutive blocks
(`lp.elements.Rectangle(x_1=min(block.x_1, prev.x_2), y_1=prev.y_2+9,
x_2=max(block.x_2, prev.x_2), y_2=block.y_1-7)` with type `"Text"`). -/
def mkGapBlock (prev cur : Block) : Block :=
  { x1 := qmin cur.x1 prev.x2
    y1 := prev.y2 + 9
    x2 := qmax cur.x2 prev.x2
    y2 := cur.y1 - 7
    type := "Text" }

/-- The gap-detection walk over the ordered layout: for each index `idx > 0`,
if `layout[idx].y1 - layout[idx-1].y2 > 100` (`continuous_block_threshold`),
a synthetic block is collected into `new_blocks`. -/
def detectGaps : List Block → List Block
  | [] => []
  | [_] => []
  | prev :: cur :: rest =>
    (if cur.y1 - prev.y2 > 100 then [mkGapBlock prev cur] else []) ++
      detectGaps (cur :: rest)

/-- The `new_blocks` list of `pdf_image_process`: empty unless
`self.page_number != 1`. -/
def newBlocks (page_number : ℤ) (layout : List Block) : List Block :=
  if page_number ≠ 1 then detectGaps layout else []

/-- `layout.extend(new_blocks)`: the ordered layout with the synthetic gap
blocks appended. -/
def gapPatched (page_number : ℤ) (layout : List Block) : List Block :=
  layout ++ newBlocks page_number layout

/-- Embedding of the per-block crop rectangle:
`x1 = max(0, int(x_1 - x_extend))`, `y1 = max(0, int(y_1 - 9))`,
`x2 = min(shape[1], int(x_2) + x_extend)`, `y2 = min(shape[0], int(y_2) + 7)`
with `x_extend = 35`.  Returned as `(x1, y1, x2, y2)`. -/
def cropRect (page_width page_height : ℤ) (b : Block) : ℤ × ℤ × ℤ × ℤ :=
  let x_extend : ℤ := 35
  (pymax 0 (pyInt (b.x1 - (x_extend : ℚ))),
   pymax 0 (pyInt (b.y1 - 9)),
   pymin page_width (pyInt b.x2 + x_extend),
   pymin page_height (pyInt b.y2 + 7))

/-- Dimensions `(height, width)` of the numpy slice `image[y1:y2, x1:x2]`
for the clamped crop rectangle (empty slices have size 0). -/
def cropDims (page_width page_height : ℤ) (b : Block) : ℤ × ℤ :=
  let r := cropRect page_width page_height b
  (pymax 0 (r.2.2.2 - r.2.1), pymax 0 (r.2.2.1 - r.1))

/-- Embedding of the resize step on a cropped segment of dimensions
`(height, width)`.  Figure blocks are untouched.  Otherwise, if
`segment.shape[0] > fix_length and fix_size`, the code calls
`cv2.resize(segment, (fix_length, int(shape[1] * scale)))` with
`scale = fix_length / shape[0]`; since cv2 `dsize` is `(width, height)`,
the output is width `fix_length` and height `int(shape[1] * scale)`.
Else, when either dimension exceeds `max_width`, both dimensions are scaled
by `max_width / max(width, height)` via `dsize = (new_width, new_height)`. -/
def resizeSegment (fix_size : Bool) (fix_length max_width : ℤ)
    (t : String) (dims : ℤ × ℤ) : ℤ × ℤ :=
  if t ≠ "Figure" then
    if dims.1 > fix_length ∧ fix_size = true then
      let scale : ℚ := (fix_length : ℚ) / (dims.1 : ℚ)
      (pyInt ((dims.2 : ℚ) * scale), fix_length)
    else
      if dims.2 > max_width ∨ dims.1 > max_width then
        let scale : ℚ := (max_width : ℚ) / ((pymax dims.2 dims.1 : ℤ) : ℚ)
        (pyInt ((dims.1 : ℚ) * scale), pyInt ((dims.2 : ℚ) * scale))
      else dims
  else dims

/-- An exported segment record: the block label together with the
`(height, width)` of the written image. -/
abbrev Segment := String × ℤ × ℤ

/-- State of a `PDFImageProcessor` after `__init__`. -/
structure Processor where
  page_number : ℤ
  page_width : ℤ
  page_height : ℤ
  image_enhance : Bool
  max_width : ℤ
  max_height : ℤ
  fix_size : Bool
  fix_length : ℤ
  image_type : String
  model : Option Unit
  segments : List Segment
deriving DecidableEq

/-- Embedding of `PDFImageProcessor.__init__`: the detection model is loaded
only when `image_type == "research paper"`, and `self.segments = []`. -/
def initProcessor (page_number page_width page_height : ℤ)
    (image_enhance : Bool) (max_width max_height : ℤ)
    (fix_size : Bool) (fix_length : ℤ) (image_type : String) : Processor :=
  { page_number := page_number
    page_width := page_width
    page_height := page_height
    image_enhance := image_enhance
    max_width := max_width
    max_height := max_height
    fix_size := fix_size
    fix_length := fix_length
    image_type := image_type
    model := if image_type == "research paper" then some () else none
    segments := [] }

/-- The crop/resize record produced for one block of the final layout. -/
def exportSegment (p : Processor) (b : Block) : Segment :=
  (b.type,
   resizeSegment p.fix_size p.fix_length p.max_width b.type
     (cropDims p.page_width p.page_height b))

/-- The final block list of the single-column path: sort by `y1`, append the
gap-patch blocks, sort by `y1` again. -/
def finalLayout (p : Processor) (layout : List Block) : List Block :=
  sortByY1 (gapPatched p.page_number (sortByY1 layout))

/-- Embedding of `pdf_image_process` (detection itself is external: the
detected `layout` is the input).  A missing model raises `ValueError`; a page
classified two-column reaches `self.process_two_column(layout, extract_text)`,
which is not defined on the class (the method is commented out), so Python
raises `AttributeError`; otherwise every block of the final ordered list is
cropped, resized and exported in list order. -/
def pdf_image_process (p : Processor) (layout : List Block) :
    Except String (List Block × List Segment) :=
  match p.model with
  | none => Except.error "ValueError: layout model not initialized"
  | some _ =>
    match is_two_column (p.page_width : ℚ) layout with
    | Except.error e => Except.error e
    | Except.ok true =>
        Except.error "AttributeError: process_two_column is not defined"
    | Except.ok false =>
        let final := finalLayout p layout
        Except.ok (final, final.map (exportSegment p))

/-! ## Bridging lemmas -/

unseal Rat.mul Rat.add Rat.sub Rat.inv

theorem ratFloor_eq (q : ℚ) : Rat.floor q = ⌊q⌋ := by
  rw [Rat.floor_def', Rat.floor_def]

theorem pyInt_of_nonneg {q : ℚ} (h : 0 ≤ q) : pyInt q = ⌊q⌋ := by
  rw [pyInt, if_neg (not_lt.mpr h), ratFloor_eq]

theorem pyInt_intCast (n : ℤ) : pyInt ((n : ℤ) : ℚ) = n := by
  rw [pyInt]
  split
  · rw [ratFloor_eq, ← Int.cast_neg, Int.floor_intCast, neg_neg]
  · rw [ratFloor_eq, Int.floor_intCast]

theorem pymax_eq (a b : ℤ) : pymax a b = max a b := by
  unfold pymax
  split
  · exact (max_eq_right ‹a ≤ b›).symm
  · exact (max_eq_left (le_of_not_le ‹¬ a ≤ b›)).symm

theorem pymin_eq (a b : ℤ) : pymin a b = min a b := by
  unfold pymin
  split
  · exact (min_eq_left ‹a ≤ b›).symm
  · exact (min_eq_right (le_of_not_le ‹¬ a ≤ b›)).symm

theorem qmax_eq (a b : ℚ) : qmax a b = max a b := by
  unfold qmax
  split
  · exact (max_eq_right ‹a ≤ b›).symm
  · exact (max_eq_left (le_of_not_le ‹¬ a ≤ b›)).symm

theorem qmin_eq (a b : ℚ) : qmin a b = min a b := by
  unfold qmin
  split
  · exact (min_eq_left ‹a ≤ b›).symm
  · exact (min_eq_right (le_of_not_le ‹¬ a ≤ b›)).symm

instance : IsTotal Block (fun a b => a.y1 ≤ b.y1) :=
  ⟨fun a b => le_total a.y1 b.y1⟩

instance : IsTrans Block (fun a b => a.y1 ≤ b.y1) :=
  ⟨fun _ _ _ hab hbc => le_trans hab hbc⟩

/-! ## Claim theorems -/

/-- A page whose Text blocks have mean width ratio 0.4, hence classified
two-column by `is_two_column`. -/
def twoColLayout : List Block :=
  [ { x1 := 50, y1 := 100, x2 := 450, y2 := 300, type := "Text" },
    { x1 := 550, y1 := 100, x2 := 950, y2 := 300, type := "Text" } ]

/-- A processor for a 1000 x 1400 page with the default configuration and a
loaded model. -/
def twoColProcessor : Processor :=
  initProcessor 1 1000 1400 false 1200 336 false 672 "research paper"

/-- C1: the claim says two-column pages are ordered by partitioning into a
left column and a right column, each sorted by `y1`, left before right.  The
code instead calls `self.process_two_column(layout, extract_text)`, a method
that is commented out and never defined on the class, so every page classified
two-column raises `AttributeError` and no ordering or export happens at all. -/
theorem two_column_page_hits_missing_method :
    is_two_column ((1000 : ℤ) : ℚ) twoColLayout = Except.ok true ∧
    pdf_image_process twoColProcessor twoColLayout =
      Except.error "AttributeError: process_two_column is not defined" :=
  ⟨rfl, rfl⟩

/-- C2: on a non-Figure crop of height 1000 and width 500 with
`fix_size = true` and `fix_length = 672`, the claim expects output height 672
and width 336.  The code passes `(fix_length, int(width * scale))` as the cv2
`dsize`, which is `(width, height)`, so the exported image has height 336 and
width 672: the roles are swapped and the aspect ratio is inverted rather than
preserved. -/
theorem fix_size_resize_swaps_dimensions :
    resizeSegment true 672 1200 "Text" (1000, 500) = (336, 672) ∧
    (resizeSegment true 672 1200 "Text" (1000, 500)).1 ≠ 672 := by
  constructor
  · decide
  · decide

/-- C3: the claim says classification of a page with no Text/List blocks is
guarded and defaults to single-column.  In the code `ratio_list` stays empty
and `sum(ratio_list) / len(ratio_list)` raises `ZeroDivisionError`: nothing
catches it, so classification fails instead of defaulting. -/
theorem no_text_blocks_raises_zero_division :
    is_two_column 1000
      [{ x1 := 100, y1 := 100, x2 := 900, y2 := 700, type := "Figure" }] =
      Except.error "ZeroDivisionError" := rfl

/-- A Text block lying below the bottom edge of a 500 x 500 page: its
extended rectangle clamps to height zero. -/
def belowPageBlock : Block := { x1 := 10, y1 := 520, x2 := 480, y2 := 560, type := "Text" }

/-- A processor for a 500 x 500 page (page number 2). -/
def smallPageProcessor : Processor :=
  initProcessor 2 500 500 false 1200 336 false 672 "research paper"

/-- C4: the claim says a block whose extended rectangle collapses to zero
width or height is skipped or flagged before resize/export.  The code has no
such guard: for `belowPageBlock` the clamped crop is `y1 = 511, y2 = 500`,
an empty slice of height 0, and the pipeline still resizes and exports it as
segment `("Text", 0, 500)`. -/
theorem degenerate_crop_is_exported :
    cropDims 500 500 belowPageBlock = (0, 500) ∧
    pdf_image_process smallPageProcessor [belowPageBlock] =
      Except.ok ([belowPageBlock], [("Text", 0, 500)]) :=
  ⟨by decide, rfl⟩

/-- C9: for every block (here with integer-valued detector coordinates, so
that Python `int()` is the identity) the crop rectangle is the detected
rectangle extended and clamped as `x1 = max(0, x1 - 35)`,
`y1 = max(0, y1 - 9)`, `x2 = min(page_width, x2 + 35)`,
`y2 = min(page_height, y2 + 7)`, with `x_extend = 35`. -/
theorem crop_rect_is_extend_and_clamp (W H a b c d : ℤ) (t : String) :
    cropRect W H { x1 := (a : ℚ), y1 := (b : ℚ), x2 := (c : ℚ), y2 := (d : ℚ), type := t } =
      (max 0 (a - 35), max 0 (b - 9), min W (c + 35), min H (d + 7)) := by
  have h1 : ((a : ℤ) : ℚ) - ((35 : ℤ) : ℚ) = ((a - 35 : ℤ) : ℚ) := by push_cast; ring
  have h2 : ((b : ℤ) : ℚ) - 9 = ((b - 9 : ℤ) : ℚ) := by push_cast; ring
  simp only [cropRect, pymax_eq, pymin_eq, h1, h2, pyInt_intCast]

/-- C10: constructing a processor with `image_type` different from
`"research paper"` leaves the model `None` and `segments` empty, and every
later call to `pdf_image_process` raises `ValueError` before detection,
ordering or export, for any layout whatsoever. -/
theorem uninitialized_model_raises_value_error (pn pw ph : ℤ) (ie : Bool)
    (mw mh : ℤ) (fs : Bool) (fl : ℤ) (it : String)
    (hit : it ≠ "research paper") :
    (initProcessor pn pw ph ie mw mh fs fl it).model = none ∧
    (initProcessor pn pw ph ie mw mh fs fl it).segments = [] ∧
    ∀ layout, pdf_image_process (initProcessor pn pw ph ie mw mh fs fl it) layout =
      Except.error "ValueError: layout model not initialized" := by
  have hb : (it == "research paper") = false := beq_eq_false_iff_ne.mpr hit
  refine ⟨by simp [initProcessor, hb], rfl, fun layout => ?_⟩
  simp [pdf_image_process, initProcessor, hb]

/-- Witness for C10 at `image_type = "photo"`. -/
theorem uninitialized_model_raises_value_error_witness :
    "photo" ≠ "research paper" ∧
    ((initProcessor 1 1000 1400 false 1200 336 false 672 "photo").model = none ∧
     (initProcessor 1 1000 1400 false 1200 336 false 672 "photo").segments = [] ∧
     ∀ layout,
       pdf_image_process (initProcessor 1 1000 1400 false 1200 336 false 672 "photo") layout =
         Except.error "ValueError: layout model not initialized") :=
  ⟨by decide,
   uninitialized_model_raises_value_error 1 1000 1400 false 1200 336 false 672 "photo"
     (by decide)⟩

/-- The pairwise walk of `detectGaps` seen as a filter over consecutive pairs
of the ordered list. -/
theorem detectGaps_eq_filter_pairs (l : List Block) :
    detectGaps l = (l.zip l.tail).filterMap (fun pc =>
      if pc.2.y1 - pc.1.y2 > 100 then some (mkGapBlock pc.1 pc.2) else none) := by
  induction l with
  | nil => rfl
  | cons a l ih =>
    cases l with
    | nil => rfl
    | cons b rest =>
      simp only [detectGaps, ih, List.tail_cons, List.zip_cons_cons, List.filterMap_cons]
      split
      · simp
      · simp

/-- C5: gap patching inserts nothing on page 1; on any other page it inserts
exactly one synthetic Text block per consecutive ordered pair whose vertical
gap `y1[i] - y2[i-1]` strictly exceeds 100, with
`x1 = min(block[i].x1, block[i-1].x2)`, `x2 = max(block[i].x2, block[i-1].x2)`,
`y1 = block[i-1].y2 + 9` and `y2 = block[i].y1 - 7`. -/
theorem gap_patch_characterization (page : ℤ) (l : List Block) (hp : page ≠ 1) :
    newBlocks 1 l = [] ∧
    newBlocks page l = (l.zip l.tail).filterMap (fun pc =>
      if pc.2.y1 - pc.1.y2 > 100 then
        some { x1 := min pc.2.x1 pc.1.x2
               y1 := pc.1.y2 + 9
               x2 := max pc.2.x2 pc.1.x2
               y2 := pc.2.y1 - 7
               type := "Text" }
      else none) := by
  constructor
  · simp [newBlocks]
  · rw [newBlocks, if_pos hp, detectGaps_eq_filter_pairs]
    simp only [mkGapBlock, qmin_eq, qmax_eq]

/-- Ordered blocks with one gap of 360 pixels between the second and third
block, below the 100-pixel threshold everywhere else. -/
def gappedLayout : List Block :=
  [ { x1 := 50, y1 := 10, x2 := 300, y2 := 40, type := "Text" },
    { x1 := 55, y1 := 60, x2 := 305, y2 := 90, type := "Text" },
    { x1 := 60, y1 := 450, x2 := 310, y2 := 500, type := "Text" } ]

/-- Witness for C5 on `gappedLayout` at page 2. -/
theorem gap_patch_characterization_witness :
    (2 : ℤ) ≠ 1 ∧
    (newBlocks 1 gappedLayout = [] ∧
     newBlocks 2 gappedLayout = (gappedLayout.zip gappedLayout.tail).filterMap (fun pc =>
       if pc.2.y1 - pc.1.y2 > 100 then
         some { x1 := min pc.2.x1 pc.1.x2
                y1 := pc.1.y2 + 9
                x2 := max pc.2.x2 pc.1.x2
                y2 := pc.2.y1 - 7
                type := "Text" }
       else none)) :=
  ⟨by decide, gap_patch_characterization 2 gappedLayout (by decide)⟩

/-- C6: on a page with a loaded model that is classified single-column, the
run succeeds and the exported segments follow `finalLayout`: the gap-patched
block list re-sorted by `y1`, which is ascending in `y1` and a permutation of
the gap-patched list. -/
theorem single_column_export_order (p : Processor) (layout : List Block)
    (hm : p.model = some ())
    (h2 : is_two_column ((p.page_width : ℤ) : ℚ) layout = Except.ok false) :
    pdf_image_process p layout =
      Except.ok (finalLayout p layout, (finalLayout p layout).map (exportSegment p)) ∧
    List.Sorted (fun a b => a.y1 ≤ b.y1) (finalLayout p layout) ∧
    (finalLayout p layout).Perm (gapPatched p.page_number (sortByY1 layout)) := by
  refine ⟨?_, ?_, ?_⟩
  · simp [pdf_image_process, hm, h2]
  · exact List.sorted_insertionSort _ _
  · exact List.perm_insertionSort _ _

/-- A single-column page: two wide Text blocks listed out of order with a
gap larger than the 100-pixel threshold between them. -/
def wideLayout : List Block :=
  [ { x1 := 30, y1 := 700, x2 := 970, y2 := 800, type := "Text" },
    { x1 := 25, y1 := 80, x2 := 975, y2 := 180, type := "Text" } ]

/-- A processor on page 2 of a 1000 x 1400 document with a loaded model. -/
def wideProcessor : Processor :=
  initProcessor 2 1000 1400 false 1200 336 false 672 "research paper"

/-- Witness for C6 on `wideLayout`. -/
theorem single_column_export_order_witness :
    wideProcessor.model = some () ∧
    is_two_column ((wideProcessor.page_width : ℤ) : ℚ) wideLayout = Except.ok false ∧
    (pdf_image_process wideProcessor wideLayout =
       Except.ok (finalLayout wideProcessor wideLayout,
         (finalLayout wideProcessor wideLayout).map (exportSegment wideProcessor)) ∧
     List.Sorted (fun a b => a.y1 ≤ b.y1) (finalLayout wideProcessor wideLayout) ∧
     (finalLayout wideProcessor wideLayout).Perm
       (gapPatched wideProcessor.page_number (sortByY1 wideLayout))) :=
  ⟨rfl, rfl, single_column_export_order wideProcessor wideLayout rfl rfl⟩

/-- Widening Text/List blocks pointwise widens the width ratios pointwise. -/
theorem ratioList_le_of_forall₂ (W : ℚ) (hW : 0 < W) {l₁ l₂ : List Block}
    (h : List.Forall₂ (fun a b => a.type = b.type ∧
      (qualifies a = true → a.x2 - a.x1 ≤ b.x2 - b.x1)) l₁ l₂) :
    List.Forall₂ (· ≤ ·) (ratioList W l₁) (ratioList W l₂) := by
  induction h with
  | nil => exact List.Forall₂.nil
  | cons hab htl ih =>
    rename_i a b la lb
    have hq : qualifies b = qualifies a := by simp [qualifies, hab.1]
    by_cases hqa : qualifies a = true
    · have hqb : qualifies b = true := by rw [hq]; exact hqa
      have e₁ : ratioList W (a :: la) = ((a.x2 - a.x1) / W) :: ratioList W la := by
        simp [ratioList, List.filter_cons_of_pos hqa]
      have e₂ : ratioList W (b :: lb) = ((b.x2 - b.x1) / W) :: ratioList W lb := by
        simp [ratioList, List.filter_cons_of_pos hqb]
      rw [e₁, e₂]
      exact List.Forall₂.cons ((div_le_div_iff_of_pos_right hW).mpr (hab.2 hqa)) ih
    · have hqb : ¬ qualifies b = true := by rw [hq]; exact hqa
      have e₁ : ratioList W (a :: la) = ratioList W la := by
        simp [ratioList, List.filter_cons_of_neg (by simpa using hqa)]
      have e₂ : ratioList W (b :: lb) = ratioList W lb := by
        simp [ratioList, List.filter_cons_of_neg (by simpa using hqb)]
      rw [e₁, e₂]
      exact ih

/-- C7: `is_two_column` returns single-column (`ok false`) exactly when the
mean of the Text/List width ratios exceeds 0.5, and it is monotone: widening
every Text/List block (same labels, pointwise larger widths) can only move a
single-column page toward single-column, never the reverse. -/
theorem is_two_column_threshold_and_monotone (W : ℚ) (hW : 0 < W)
    (l₁ l₂ : List Block)
    (h : List.Forall₂ (fun a b => a.type = b.type ∧
      (qualifies a = true → a.x2 - a.x1 ≤ b.x2 - b.x1)) l₁ l₂) :
    (∀ (l : List Block) (r : Bool), is_two_column W l = Except.ok r →
      (ratioList W l ≠ [] ∧
       (r = false ↔ (ratioList W l).sum / ((ratioList W l).length : ℚ) > 1/2))) ∧
    (is_two_column W l₁ = Except.ok false → is_two_column W l₂ = Except.ok false) := by
  have hchar : ∀ (l : List Block) (r : Bool), is_two_column W l = Except.ok r →
      (ratioList W l ≠ [] ∧
       (r = false ↔ (ratioList W l).sum / ((ratioList W l).length : ℚ) > 1/2)) := by
    intro l r hok
    simp only [is_two_column] at hok
    by_cases h0 : (ratioList W l).length = 0
    · rw [if_pos h0] at hok
      exact absurd hok (by simp)
    · rw [if_neg h0] at hok
      refine ⟨fun hnil => h0 (by rw [hnil]; rfl), ?_⟩
      by_cases havg : (ratioList W l).sum / ((ratioList W l).length : ℚ) > 1/2
      · rw [if_pos havg] at hok
        have hr : false = r := by injection hok
        subst hr
        simpa using havg
      · rw [if_neg havg] at hok
        have hr : true = r := by injection hok
        subst hr
        simpa using havg
  refine ⟨hchar, fun h1 => ?_⟩
  obtain ⟨hne₁, hiff₁⟩ := hchar l₁ false h1
  have havg₁ := hiff₁.mp rfl
  have hf := ratioList_le_of_forall₂ W hW h
  have hlen : (ratioList W l₁).length = (ratioList W l₂).length := hf.length_eq
  have hsum : (ratioList W l₁).sum ≤ (ratioList W l₂).sum := hf.sum_le_sum
  have hpos : (0 : ℚ) < ((ratioList W l₁).length : ℚ) := by
    have := Nat.pos_of_ne_zero (fun hc => hne₁ (List.length_eq_zero.mp hc))
    exact_mod_cast this
  have hlen0 : ¬ (ratioList W l₂).length = 0 := by
    rw [← hlen]
    exact fun hc => hne₁ (List.length_eq_zero.mp hc)
  have havg₂ : (ratioList W l₂).sum / ((ratioList W l₂).length : ℚ) > 1/2 := by
    rw [← hlen]
    calc (1 : ℚ)/2 < (ratioList W l₁).sum / ((ratioList W l₁).length : ℚ) := havg₁
      _ ≤ (ratioList W l₂).sum / ((ratioList W l₁).length : ℚ) :=
        (div_le_div_iff_of_pos_right hpos).mpr hsum
  simp only [is_two_column]
  rw [if_neg hlen0, if_pos havg₂]

/-- A single Text block of width 600 on a 1000-wide page. -/
def narrowLayout : List Block :=
  [ { x1 := 0, y1 := 0, x2 := 600, y2 := 50, type := "Text" } ]

/-- The same layout with the single Text block widened to 700. -/
def widenedLayout : List Block :=
  [ { x1 := 0, y1 := 0, x2 := 700, y2 := 50, type := "Text" } ]

/-- Witness for C7 on the widening of `narrowLayout` to `widenedLayout`. -/
theorem is_two_column_threshold_and_monotone_witness :
    (0 : ℚ) < 1000 ∧
    List.Forall₂ (fun a b => a.type = b.type ∧
      (qualifies a = true → a.x2 - a.x1 ≤ b.x2 - b.x1)) narrowLayout widenedLayout ∧
    ((∀ (l : List Block) (r : Bool), is_two_column 1000 l = Except.ok r →
        (ratioList 1000 l ≠ [] ∧
         (r = false ↔ (ratioList 1000 l).sum / ((ratioList 1000 l).length : ℚ) > 1/2))) ∧
     (is_two_column 1000 narrowLayout = Except.ok false →
      is_two_column 1000 widenedLayout = Except.ok false)) :=
  ⟨by decide,
   List.Forall₂.cons ⟨rfl, fun _ => by decide⟩ List.Forall₂.nil,
   is_two_column_threshold_and_monotone 1000 (by decide) narrowLayout widenedLayout
     (List.Forall₂.cons ⟨rfl, fun _ => by decide⟩ List.Forall₂.nil)⟩

/-- Scaling a nonnegative dimension by `max_width / m` with `0 < m` and the
dimension at most `m` lands at most at `max_width` after truncation. -/
theorem pyInt_scaled_le {x m mw : ℤ} (hx : 0 ≤ x) (hm : 0 < m) (hmw : 0 ≤ mw)
    (hxm : x ≤ m) : pyInt ((x : ℚ) * ((mw : ℚ) / (m : ℚ))) ≤ mw := by
  have hmQ : (0 : ℚ) < (m : ℚ) := by exact_mod_cast hm
  have hq : (0 : ℚ) ≤ (x : ℚ) * ((mw : ℚ) / (m : ℚ)) := by positivity
  rw [pyInt_of_nonneg hq]
  have hle : (x : ℚ) * ((mw : ℚ) / (m : ℚ)) ≤ ((mw : ℤ) : ℚ) := by
    have hstep : (x : ℚ) * ((mw : ℚ) / (m : ℚ)) ≤ (m : ℚ) * ((mw : ℚ) / (m : ℚ)) := by
      apply mul_le_mul_of_nonneg_right _ (by positivity)
      exact_mod_cast hxm
    have hcancel : (m : ℚ) * ((mw : ℚ) / (m : ℚ)) = (mw : ℚ) := by
      field_simp
    rw [hcancel] at hstep
    exact hstep
  calc ⌊(x : ℚ) * ((mw : ℚ) / (m : ℚ))⌋ ≤ ⌊((mw : ℤ) : ℚ)⌋ := Int.floor_le_floor hle
    _ = mw := Int.floor_intCast mw

/-- C8: outside fixed-height mode, a non-Figure crop is exported with both
dimensions at most `max_width` (scaled down by `max_width / max(width, height)`
when either dimension exceeds `max_width`, else untouched), while a
Figure-labelled crop is never rescaled. -/
theorem resize_bounded_by_max_width (fs : Bool) (fl mw : ℤ) (t : String)
    (h w : ℤ) (hmw : 0 < mw) (hh : 0 ≤ h) (hw : 0 ≤ w)
    (hfix : ¬ (h > fl ∧ fs = true)) (ht : t ≠ "Figure") :
    ((resizeSegment fs fl mw t (h, w)).1 ≤ mw ∧
     (resizeSegment fs fl mw t (h, w)).2 ≤ mw) ∧
    (∀ (fs' : Bool) (fl' mw' : ℤ) (d : ℤ × ℤ),
      resizeSegment fs' fl' mw' "Figure" d = d) := by
  constructor
  · rw [resizeSegment, if_pos ht, if_neg hfix]
    by_cases hbig : (h, w).2 > mw ∨ (h, w).1 > mw
    · rw [if_pos hbig]
      have hmpos : 0 < pymax w h := by
        rw [pymax_eq]
        rcases hbig with hb | hb
        · exact lt_of_lt_of_le (lt_trans hmw hb) (le_max_left w h)
        · exact lt_of_lt_of_le (lt_trans hmw hb) (le_max_right w h)
      constructor
      · exact pyInt_scaled_le hh hmpos (le_of_lt hmw)
          (by rw [pymax_eq]; exact le_max_right w h)
      · exact pyInt_scaled_le hw hmpos (le_of_lt hmw)
          (by rw [pymax_eq]; exact le_max_left w h)
    · rw [if_neg hbig]
      push_neg at hbig
      exact ⟨hbig.2, hbig.1⟩
  · intro fs' fl' mw' d
    rw [resizeSegment, if_neg (by simp)]

/-- Witness for C8: a 2000 x 1000 Text crop with `max_width = 1200` and
fixed-height mode off. -/
theorem resize_bounded_by_max_width_witness :
    (0 : ℤ) < 1200 ∧ (0 : ℤ) ≤ 2000 ∧ (0 : ℤ) ≤ 1000 ∧
    ¬ ((2000 : ℤ) > 672 ∧ false = true) ∧ "Text" ≠ "Figure" ∧
    (((resizeSegment false 672 1200 "Text" (2000, 1000)).1 ≤ 1200 ∧
      (resizeSegment false 672 1200 "Text" (2000, 1000)).2 ≤ 1200) ∧
     (∀ (fs' : Bool) (fl' mw' : ℤ) (d : ℤ × ℤ),
       resizeSegment fs' fl' mw' "Figure" d = d)) :=
  ⟨by decide, by decide, by decide, by decide, by decide,
   resize_bounded_by_max_width false 672 1200 "Text" 2000 1000
     (by decide) (by decide) (by decide) (by decide) (by decide)⟩

end PaperGather
